import Mathlib

/-!
Verification of the Guide Discovery & Reputation Engine of the Morchid Hub
backend (FastAPI/SQLAlchemy).  The relational state is embedded as lists of
records; each HTTP handler becomes a function from the database state (plus
the authenticated user and the parsed request body) to `Except ApiError`.
An error result models the handler raising an `HTTPException` before the
session commits, so the transaction rolls back and the state is unchanged.
Database ids (UUID strings in the source) are abstracted as naturals;
SQL numeric values (`Float`, `NUMERIC`) are modelled as rationals.
-/

namespace MorchidHub

/-- Round-half-to-even of a rational to the nearest integer, the rounding
performed by Python's builtin `round` on an exactly representable value. -/
def roundHalfEven (q : ℚ) : ℤ :=
  let f := ⌊q⌋
  let r := q - f
  if r < 1/2 then f
  else if 1/2 < r then f + 1
  else if f % 2 = 0 then f else f + 1

/-- Python `round(x, 1)`: round to one decimal place, ties to even. -/
def pyRound1 (q : ℚ) : ℚ := (roundHalfEven (q * 10) : ℚ) / 10

/-- Row of the `users` table (`app/models.py`, class `User`).  Only the
columns the claims touch are kept.  `full_name` is nullable in the schema
but no claim involves a NULL name, so it is a plain string here. -/
structure User where
  id : ℕ
  full_name : String
  role : String
  is_active : Bool
  is_admin : Bool
deriving DecidableEq, Repr

/-- Row of the `guides` table (`app/models.py`, class `Guide`). -/
structure Guide where
  id : ℕ
  user_id : ℕ
  languages : List String
  specialties : List String
  cities_covered : List String
  years_of_experience : ℕ
  bio : String
  is_verified : Bool
  eco_score : ℤ
  approval_status : String
  average_rating : ℚ
  total_reviews : ℕ
deriving DecidableEq, Repr

/-- A WGS84 coordinate pair, as stored in the JSON `coordinates` column and
received in the request body. -/
structure Coordinate where
  lat : ℚ
  lng : ℚ
deriving DecidableEq, Repr

/-- Row of the `guide_routes` table (`app/models.py`, class `GuideRoute`).
The derived PostGIS geometries are regenerated from `coordinates` at write
time and carry no extra information, so only the raw list is kept. -/
structure GuideRoute where
  id : ℕ
  guide_id : ℕ
  coordinates : List Coordinate
  distance : ℚ
  duration : ℚ
  start_address : Option String
  end_address : Option String
  is_active : Bool
deriving DecidableEq, Repr

/-- Modelled from the spec: the `Review` model is imported by
`app/reviews.py` but its declaration is not among the provided sources.
Fields follow the spec's Rating data model (§3): one guide, one rating
tourist, an optional route reference, an integer score and a comment. -/
structure Review where
  id : ℕ
  guide_id : ℕ
  tourist_id : ℕ
  route_id : Option ℕ
  rating : ℕ
  comment : String
deriving DecidableEq, Repr

/-- The relational state: one list per table. -/
structure DB where
  users : List User
  guides : List Guide
  routes : List GuideRoute
  reviews : List Review
deriving DecidableEq, Repr

/-- The machine-readable error codes raised by the handlers under
verification (`HTTPException.detail.error_code` in the source). -/
inductive ApiError where
  /-- status 422, raised by FastAPI/pydantic before the handler body runs -/
  | validationError
  /-- status 403 FORBIDDEN_ROLE in `create_review` -/
  | forbiddenRole
  /-- status 404 GUIDE_NOT_FOUND in `create_review` -/
  | guideNotFound
  /-- status 400 SELF_REVIEW in `create_review` -/
  | selfReview
  /-- status 409 REVIEW_ALREADY_EXISTS, the Conflict error, in `create_review` -/
  | reviewAlreadyExists
  /-- status 404 ROUTE_NOT_FOUND in `create_review` -/
  | routeNotFound
  /-- status 404 REVIEW_NOT_FOUND in `delete_review` -/
  | reviewNotFound
  /-- status 403 FORBIDDEN in `delete_review` -/
  | forbidden
  /-- status 403 NOT_A_GUIDE in `save_guide_route` -/
  | notAGuide
  /-- status 404 GUIDE_PROFILE_NOT_FOUND in `save_guide_route` -/
  | guideProfileNotFound
  /-- status 400 INVALID_GEOMETRY in `save_guide_route` -/
  | invalidGeometry
deriving DecidableEq, Repr

/-! ## Reputation Aggregator (`app/reviews.py`) -/

/-- The scores the SQL aggregate `COUNT(id), AVG(rating)` sees for one
guide: the ratings of all reviews with this `guide_id`. -/
def guideScores (reviews : List Review) (gid : ℕ) : List ℕ :=
  (reviews.filter (fun r => r.guide_id == gid)).map Review.rating

/-- Embeds `_recalculate_guide_rating` (`app/reviews.py` lines 34-56): recompute
`total_reviews` and `average_rating` from the current review rows.
`row.cnt or 0` is the count itself and `if row.avg` is Python truthiness:
the average is NULL when there are no rows and may in principle be 0, and
in both cases the stored average becomes 0.0. -/
def recalculate_guide_rating (reviews : List Review) (g : Guide) : Guide :=
  let scores := guideScores reviews g.id
  let cnt := scores.length
  let avg : ℚ := if cnt = 0 then 0 else (scores.sum : ℚ) / cnt
  { g with
    total_reviews := cnt
    average_rating := if avg ≠ 0 then pyRound1 avg else 0 }

/-- Modelled from the spec: the `ReviewCreate` request schema is imported
by `app/reviews.py` but not declared in the provided sources.  Per the
spec's HTTP surface (§6), the body carries guide_id, a rating in [1,5],
an optional comment and an optional route_id. -/
structure ReviewCreate where
  guide_id : ℕ
  route_id : Option ℕ
  rating : ℕ
  comment : String
deriving DecidableEq, Repr

/-- Modelled from the spec: the pydantic validation of `ReviewCreate`
(§6: `rating ∈ [1,5]`). -/
def reviewCreateValid (rd : ReviewCreate) : Prop :=
  1 ≤ rd.rating ∧ rd.rating ≤ 5

instance (rd : ReviewCreate) : Decidable (reviewCreateValid rd) := by
  unfold reviewCreateValid; infer_instance

/-- Embeds `create_review` (`app/reviews.py` lines 81-188).  Checks, in source
order: requester role, guide existence and verification, self-review,
duplicate `(guide_id, tourist_id)` rating, route ownership; then inserts
the review and recomputes the guide's aggregate before the single commit.
`newId` stands for the generated UUID of the inserted row. -/
def create_review (db : DB) (current_user : User) (rd : ReviewCreate)
    (newId : ℕ) : Except ApiError (DB × Review) :=
  if current_user.role ≠ "tourist" then .error .forbiddenRole
  else
    match db.guides.find? (fun g => g.id == rd.guide_id && g.is_verified) with
    | none => .error .guideNotFound
    | some guide =>
      if guide.user_id = current_user.id then .error .selfReview
      else if (db.reviews.find? (fun r =>
          r.guide_id == rd.guide_id && r.tourist_id == current_user.id)).isSome then
        .error .reviewAlreadyExists
      else if rd.route_id.elim false (fun rid =>
          (db.routes.find? (fun rt =>
            rt.id == rid && rt.guide_id == rd.guide_id)).isNone) then
        .error .routeNotFound
      else
        let new_review : Review :=
          { id := newId, guide_id := rd.guide_id, tourist_id := current_user.id
            route_id := rd.route_id, rating := rd.rating, comment := rd.comment }
        let reviews' := db.reviews ++ [new_review]
        let guides' := db.guides.map (fun g =>
          if g.id = guide.id then recalculate_guide_rating reviews' g else g)
        .ok ({ db with reviews := reviews', guides := guides' }, new_review)

/-- The database state visible after a `create_review` request: the new
state on success, the unchanged state when the handler raised (the session
is closed without commit, rolling the transaction back). -/
def dbAfterCreateReview (db : DB) (current_user : User) (rd : ReviewCreate)
    (newId : ℕ) : DB :=
  match create_review db current_user rd newId with
  | .ok (db', _) => db'
  | .error _ => db

/-- Embeds `delete_review` (`app/reviews.py` lines 279-319): the review must
exist, only its author or an admin may delete it; the row is removed and
the owning guide's aggregate recomputed before the commit. -/
def delete_review (db : DB) (current_user : User) (review_id : ℕ) :
    Except ApiError DB :=
  match db.reviews.find? (fun r => r.id == review_id) with
  | none => .error .reviewNotFound
  | some review =>
    if review.tourist_id ≠ current_user.id ∧ ¬ current_user.is_admin then
      .error .forbidden
    else
      let reviews' := db.reviews.filter (fun r => r.id != review_id)
      let guides' :=
        match db.guides.find? (fun g => g.id == review.guide_id) with
        | none => db.guides
        | some _ => db.guides.map (fun g =>
            if g.id = review.guide_id then recalculate_guide_rating reviews' g else g)
      .ok { db with reviews := reviews', guides := guides' }

/-! ## Aggregate-consistency statement used by C1 and C3 -/

/-- The spec-side aggregate of a rating multiset: the count, and the mean
rounded to one decimal (0.0 for the empty set). -/
def specAverage (scores : List ℕ) : ℚ :=
  if scores.length = 0 then 0 else pyRound1 ((scores.sum : ℚ) / scores.length)

/-- The guide's stored reputation summary equals the aggregate of its
current rating set in `db`. -/
def summaryMatchesRatings (db : DB) (g : Guide) : Prop :=
  g.total_reviews = (guideScores db.reviews g.id).length ∧
  g.average_rating = specAverage (guideScores db.reviews g.id)

theorem pyRound1_zero : pyRound1 0 = 0 := by
  norm_num [pyRound1, roundHalfEven]

theorem recalculate_guide_rating_id (reviews : List Review) (g : Guide) :
    (recalculate_guide_rating reviews g).id = g.id := rfl

/-- Helper: the guarded average written by the code (`0.0` unless the SQL
average is truthy) agrees with the spec-side rounded mean. -/
theorem code_avg_eq_spec (n s : ℕ) :
    (if (if n = 0 then (0 : ℚ) else (s : ℚ) / n) ≠ 0 then
        pyRound1 (if n = 0 then (0 : ℚ) else (s : ℚ) / n) else 0) =
      (if n = 0 then 0 else pyRound1 ((s : ℚ) / n)) := by
  by_cases h : n = 0
  · simp [h]
  · by_cases hz : ((s : ℚ) / n) = 0
    · simp [h, hz, pyRound1_zero]
    · simp [h, hz]

/-- Helper: `_recalculate_guide_rating` establishes the aggregate identity
for the review list it is given. -/
theorem recalculate_guide_rating_correct (reviews : List Review) (g : Guide) :
    (recalculate_guide_rating reviews g).total_reviews =
      (guideScores reviews g.id).length ∧
    (recalculate_guide_rating reviews g).average_rating =
      specAverage (guideScores reviews g.id) := by
  refine ⟨rfl, ?_⟩
  show (if _ then _ else _) = _
  rw [specAverage, code_avg_eq_spec (guideScores reviews g.id).length
    (guideScores reviews g.id).sum]

/-- C1: after every rating insert (`create_review`) and every rating delete
(`delete_review`) that succeeds, the stored reputation summary of the
affected guide equals the aggregate of that guide's current rating set:
`total_reviews` is the number of its ratings and `average_rating` is the
mean of their scores rounded to one decimal, `0.0` when the set is empty. -/
theorem c1_reputation_summary_consistent
    (db : DB) (u : User) (rd : ReviewCreate) (nid : ℕ)
    (db2 : DB) (u2 : User) (rid : ℕ) :
    (∀ db' rv, create_review db u rd nid = .ok (db', rv) →
      ∀ g ∈ db'.guides, g.id = rd.guide_id → summaryMatchesRatings db' g) ∧
    (∀ rv0 db2', db2.reviews.find? (fun r => r.id == rid) = some rv0 →
      delete_review db2 u2 rid = .ok db2' →
      ∀ g ∈ db2'.guides, g.id = rv0.guide_id → summaryMatchesRatings db2' g) := by
  constructor
  · intro db' rv h
    unfold create_review at h
    split at h
    · exact Except.noConfusion h
    split at h
    · exact Except.noConfusion h
    rename_i guide hguide
    have hpred := List.find?_some hguide
    simp only [Bool.and_eq_true, beq_iff_eq] at hpred
    split at h
    · exact Except.noConfusion h
    split at h
    · exact Except.noConfusion h
    split at h
    · exact Except.noConfusion h
    injection h with h1
    injection h1 with hdb hrv
    subst hdb
    intro g hg hgid
    simp only [List.mem_map] at hg
    obtain ⟨g0, hg0, rfl⟩ := hg
    by_cases hid : g0.id = guide.id
    · simp only [if_pos hid]
      constructor
      · exact (recalculate_guide_rating_correct _ g0).1
      · rw [recalculate_guide_rating_id]
        exact (recalculate_guide_rating_correct _ g0).2
    · rw [if_neg hid] at hgid ⊢
      exact absurd (hgid.trans hpred.1.symm) hid
  · intro rv0 db2' hfind h
    unfold delete_review at h
    split at h
    · exact Except.noConfusion h
    rename_i review hrev
    rw [hfind] at hrev
    injection hrev with hrv
    subst hrv
    split at h
    · exact Except.noConfusion h
    injection h with hdb
    subst hdb
    intro g hg hgid
    cases hguide : db2.guides.find? (fun gg => gg.id == rv0.guide_id) with
    | none =>
      exfalso
      have := List.find?_eq_none.mp hguide g (by
        simpa only [hguide] using hg)
      simp [hgid] at this
    | some w =>
      simp only [hguide] at hg
      simp only [List.mem_map] at hg
      obtain ⟨g0, hg0, rfl⟩ := hg
      by_cases hid : g0.id = rv0.guide_id
      · simp only [if_pos hid]
        constructor
        · exact (recalculate_guide_rating_correct _ g0).1
        · rw [recalculate_guide_rating_id]
          exact (recalculate_guide_rating_correct _ g0).2
      · rw [if_neg hid] at hgid ⊢
        exact absurd hgid hid

/-! Concrete data used by the witnesses. -/

/-- A tourist account. -/
def uTourist : User := ⟨2, "Tina", "tourist", true, false⟩

/-- The guide's owning user account. -/
def uOwner : User := ⟨10, "Gus", "guide", true, false⟩

/-- A verified, approved guide with an empty rating set. -/
def gBase : Guide :=
  ⟨1, 10, ["Francais"], ["nature"], ["Marrakech"], 3, "bio", true, 50,
    "approved", 0, 0⟩

/-- Initial witness state: two users, one guide, no routes, no reviews. -/
def dbBase : DB := ⟨[uTourist, uOwner], [gBase], [], []⟩

/-- A five-star review request for the guide. -/
def rdFive : ReviewCreate := ⟨1, none, 5, "top"⟩

/-- The review row created from `rdFive`. -/
def rvFive : Review := ⟨100, 1, 2, none, 5, "top"⟩

/-- The guide after the five-star rating is aggregated. -/
def gAfterFive : Guide := { gBase with total_reviews := 1, average_rating := 5 }

/-- The state after `create_review dbBase uTourist rdFive 100`. -/
def dbAfterFive : DB := ⟨[uTourist, uOwner], [gAfterFive], [], [rvFive]⟩

theorem create_review_dbBase_run :
    create_review dbBase uTourist rdFive 100 = .ok (dbAfterFive, rvFive) := by
  norm_num [create_review, recalculate_guide_rating, guideScores, pyRound1,
    roundHalfEven, dbBase, uTourist, uOwner, gBase, rdFive, rvFive,
    gAfterFive, dbAfterFive, List.find?]

theorem delete_review_dbAfterFive_run :
    delete_review dbAfterFive uTourist 100 = .ok dbBase := by
  norm_num [delete_review, recalculate_guide_rating, guideScores, pyRound1,
    roundHalfEven, dbBase, uTourist, uOwner, gBase, rvFive, gAfterFive,
    dbAfterFive, List.find?, List.filter]

/-- Witness for C1: the concrete insert and delete runs above, with the
aggregate identity obtained from the theorem at those runs. -/
theorem c1_reputation_summary_consistent_witness :
    create_review dbBase uTourist rdFive 100 = .ok (dbAfterFive, rvFive) ∧
    summaryMatchesRatings dbAfterFive gAfterFive ∧
    delete_review dbAfterFive uTourist 100 = .ok dbBase ∧
    summaryMatchesRatings dbBase gBase :=
  ⟨create_review_dbBase_run,
    (c1_reputation_summary_consistent dbBase uTourist rdFive 100
        dbAfterFive uTourist 100).1 dbAfterFive rvFive create_review_dbBase_run
      gAfterFive (by simp [dbAfterFive]) rfl,
    delete_review_dbAfterFive_run,
    (c1_reputation_summary_consistent dbBase uTourist rdFive 100
        dbAfterFive uTourist 100).2 rvFive dbBase
      (by simp [dbAfterFive, rvFive, List.find?])
      delete_review_dbAfterFive_run gBase (by simp [dbBase]) rfl⟩

/-! Scenario data for C3: five tourists rate the guide [5,4,4,5,4], then
the author of the first five-star rating (comment "x") deletes it. -/

/-- Tourist accounts t1 .. t5 (ids 2 .. 6). -/
def tAt (n : ℕ) : User := ⟨n, "T", "tourist", true, false⟩

/-- Initial C3 state: five tourists, the owner, the guide, nothing else. -/
def dbS0 : DB := ⟨[tAt 2, tAt 3, tAt 4, tAt 5, tAt 6, uOwner], [gBase], [], []⟩

/-- State after t1 rates 5 with comment "x". -/
def dbS1 : DB := dbAfterCreateReview dbS0 (tAt 2) ⟨1, none, 5, "x"⟩ 101

/-- State after t2 rates 4. -/
def dbS2 : DB := dbAfterCreateReview dbS1 (tAt 3) ⟨1, none, 4, "a"⟩ 102

/-- State after t3 rates 4. -/
def dbS3 : DB := dbAfterCreateReview dbS2 (tAt 4) ⟨1, none, 4, "b"⟩ 103

/-- State after t4 rates 5. -/
def dbS4 : DB := dbAfterCreateReview dbS3 (tAt 5) ⟨1, none, 5, "c"⟩ 104

/-- State after t5 rates 4: the rating set is [5,4,4,5,4]. -/
def dbS5 : DB := dbAfterCreateReview dbS4 (tAt 6) ⟨1, none, 4, "d"⟩ 105

/-- State after t1 deletes the five-star rating with comment "x": the
rating set is [4,4,5,4]. -/
def dbS6 : DB :=
  match delete_review dbS5 (tAt 2) 101 with
  | .ok d => d
  | .error _ => dbS5

/-- The stored average of guide 1 in a state. -/
def storedAverage (db : DB) : Option ℚ :=
  (db.guides.find? (fun g => g.id == 1)).map Guide.average_rating

/-- The stored review count of guide 1 in a state. -/
def storedCount (db : DB) : Option ℕ :=
  (db.guides.find? (fun g => g.id == 1)).map Guide.total_reviews

/-- C3 counterexample: after deleting the five-star rating the remaining
set is [4,4,5,4] with mean 4.25, and the recomputed stored average is not
4.3 as the claim states — Python's `round` rounds the tie 4.25 half-to-even,
down to 4.2. -/
theorem c3_scenario_counterexample :
    storedAverage dbS6 ≠ some (43/10) := by
  norm_num [storedAverage, dbS6, dbS5, dbS4, dbS3, dbS2, dbS1, dbS0,
    dbAfterCreateReview, create_review, delete_review,
    recalculate_guide_rating, guideScores, pyRound1, roundHalfEven,
    tAt, uOwner, gBase, List.find?, List.filter]

/-- C3 amended: rating the guide [5,4,4,5,4] yields average_rating 4.4 and
total_reviews 5; after deleting the single five-star rating with comment
"x" the remaining set [4,4,5,4] has mean 4.25 and the recomputed summary is
average_rating 4.2 (round-half-even) and total_reviews 4. -/
theorem c3_scenario_amended :
    storedAverage dbS5 = some (22/5) ∧ storedCount dbS5 = some 5 ∧
    storedAverage dbS6 = some (21/5) ∧ storedCount dbS6 = some 4 := by
  norm_num [storedAverage, storedCount, dbS6, dbS5, dbS4, dbS3, dbS2, dbS1,
    dbS0, dbAfterCreateReview, create_review, delete_review,
    recalculate_guide_rating, guideScores, pyRound1, roundHalfEven,
    tAt, uOwner, gBase, List.find?, List.filter]

/-! ## Route Store (`app/main.py` `save_guide_route`, `app/schemas.py`) -/

/-- Request body of `POST /api/v1/guides/routes` (`app/schemas.py`, class
`GuideRouteCreate`). -/
structure GuideRouteCreate where
  coordinates : List Coordinate
  start_point : Coordinate
  end_point : Coordinate
  distance : ℚ
  duration : ℚ
  start_address : Option String
  end_address : Option String
deriving DecidableEq, Repr

/-- Bounds checked by pydantic on `RouteCoordinate`: latitude in [-90,90],
longitude in [-180,180]. -/
def coordinateValid (c : Coordinate) : Prop :=
  -90 ≤ c.lat ∧ c.lat ≤ 90 ∧ -180 ≤ c.lng ∧ c.lng ≤ 180

instance (c : Coordinate) : Decidable (coordinateValid c) := by
  unfold coordinateValid; infer_instance

/-- Length cap (`max_length=500`) of the optional address fields. -/
def addrLenOK : Option String → Prop
  | none => True
  | some s => s.length ≤ 500

instance : DecidablePred addrLenOK := fun o => by
  cases o with
  | none => exact isTrue trivial
  | some s => exact inferInstanceAs (Decidable (s.length ≤ 500))

/-- Validation pydantic performs on `GuideRouteCreate` before the handler
runs (`app/schemas.py` lines 232-254): at least two coordinates, every
point inside the WGS84 bounds, positive distance and duration, address
length caps. -/
def guideRouteCreateValid (rd : GuideRouteCreate) : Prop :=
  2 ≤ rd.coordinates.length ∧ (∀ c ∈ rd.coordinates, coordinateValid c) ∧
  coordinateValid rd.start_point ∧ coordinateValid rd.end_point ∧
  0 < rd.distance ∧ 0 < rd.duration ∧
  addrLenOK rd.start_address ∧ addrLenOK rd.end_address

instance (rd : GuideRouteCreate) : Decidable (guideRouteCreateValid rd) := by
  unfold guideRouteCreateValid; infer_instance

/-- A Shapely `LineString` value, kept abstract as its coordinate list. -/
structure LineStringGeom where
  points : List (ℚ × ℚ)
deriving DecidableEq, Repr

/-- Shapely `LineString` construction over (lng, lat) tuples: raises — the
one failure mode of the handler's geometry block — unless it receives at
least two coordinate tuples. -/
def mkLineString (pts : List (ℚ × ℚ)) : Option LineStringGeom :=
  if 2 ≤ pts.length then some ⟨pts⟩ else none

/-- Embeds `save_guide_route` (`app/main.py` lines 1017-1140): requester
must have role guide and a guide profile; every currently active route of
that guide is deactivated; the PostGIS geometries are built (failure there
raises INVALID_GEOMETRY and, with no commit issued, rolls everything
back); then the new route is inserted with `is_active = true` and the
transaction commits. -/
def save_guide_route (db : DB) (current_user : User) (rd : GuideRouteCreate)
    (newId : ℕ) : Except ApiError (DB × GuideRoute) :=
  if current_user.role ≠ "guide" then .error .notAGuide
  else
    match db.guides.find? (fun g => g.user_id == current_user.id) with
    | none => .error .guideProfileNotFound
    | some guide =>
      let deactivated := db.routes.map (fun r =>
        if r.guide_id == guide.id && r.is_active then
          { r with is_active := false } else r)
      match mkLineString (rd.coordinates.map (fun c => (c.lng, c.lat))) with
      | none => .error .invalidGeometry
      | some _ =>
        let new_route : GuideRoute :=
          { id := newId, guide_id := guide.id, coordinates := rd.coordinates
            distance := rd.distance, duration := rd.duration
            start_address := rd.start_address, end_address := rd.end_address
            is_active := true }
        .ok ({ db with routes := deactivated ++ [new_route] }, new_route)

/-- The full `POST /api/v1/guides/routes` request: pydantic validation of
the body, then the handler. -/
def createRouteEndpoint (db : DB) (current_user : User) (rd : GuideRouteCreate)
    (newId : ℕ) : Except ApiError (DB × GuideRoute) :=
  if guideRouteCreateValid rd then save_guide_route db current_user rd newId
  else .error .validationError

/-- The database state visible after a `POST /api/v1/guides/routes`
request (errors roll the transaction back). -/
def dbAfterCreateRoute (db : DB) (current_user : User) (rd : GuideRouteCreate)
    (newId : ℕ) : DB :=
  match createRouteEndpoint db current_user rd newId with
  | .ok (db', _) => db'
  | .error _ => db

/-- The active routes a state stores for guide `gid`. -/
def activeRoutes (db : DB) (gid : ℕ) : List GuideRoute :=
  db.routes.filter (fun r => r.guide_id == gid && r.is_active)

/-- Helper: the deactivation pass leaves no active route for the guide. -/
theorem filter_deactivate_self (routes : List GuideRoute) (tid : ℕ) :
    (routes.map (fun r =>
      if r.guide_id == tid && r.is_active then { r with is_active := false }
      else r)).filter (fun r => r.guide_id == tid && r.is_active) = [] := by
  rw [List.filter_eq_nil_iff]
  intro a ha
  simp only [List.mem_map] at ha
  obtain ⟨r, _, rfl⟩ := ha
  by_cases h : (r.guide_id == tid && r.is_active) = true
  · simp [h]
  · simp only [if_neg h]
    exact fun hc => h hc

/-- Helper: the deactivation pass does not touch routes of other guides. -/
theorem filter_deactivate_other (routes : List GuideRoute) (gid tid : ℕ)
    (hne : gid ≠ tid) :
    (routes.map (fun r =>
      if r.guide_id == tid && r.is_active then { r with is_active := false }
      else r)).filter (fun r => r.guide_id == gid && r.is_active) =
    routes.filter (fun r => r.guide_id == gid && r.is_active) := by
  induction routes with
  | nil => rfl
  | cons r rs ih =>
    simp only [List.map_cons, List.filter_cons]
    by_cases h : (r.guide_id == tid && r.is_active) = true
    · have hgid : r.guide_id = tid := by
        simpa using (Bool.and_elim_left h)
      have h1 : (({ r with is_active := false } : GuideRoute).guide_id == gid
          && ({ r with is_active := false } : GuideRoute).is_active) = false := by
        simp
      have h2 : (r.guide_id == gid && r.is_active) = false := by
        simp [hgid, Ne.symm hne]
      rw [if_pos h, h1, h2, ih]
      simp
    · rw [if_neg h, ih]

/-- C2: a successful `save_guide_route` leaves the newly inserted route as
the guide's only active route — the prior active routes were all
deactivated in the same transaction — it does not touch any other guide's
routes, and it preserves the invariant that every guide has at most one
active route. -/
theorem c2_single_active_route (db : DB) (u : User) (rd : GuideRouteCreate)
    (nid : ℕ) (db' : DB) (rt : GuideRoute)
    (h : save_guide_route db u rd nid = .ok (db', rt)) :
    activeRoutes db' rt.guide_id = [rt] ∧
    (∀ gid, gid ≠ rt.guide_id → activeRoutes db' gid = activeRoutes db gid) ∧
    (∀ gid, (activeRoutes db gid).length ≤ 1 →
      (activeRoutes db' gid).length ≤ 1) := by
  unfold save_guide_route at h
  split at h
  · exact Except.noConfusion h
  split at h
  · exact Except.noConfusion h
  rename_i guide hguide
  split at h
  · exact Except.noConfusion h
  injection h with h1
  injection h1 with hdb hrt
  subst hdb
  subst hrt
  have hmain : activeRoutes
      ({ db with routes := (db.routes.map (fun r =>
          if r.guide_id == guide.id && r.is_active then
            { r with is_active := false } else r)) ++
        [{ id := nid, guide_id := guide.id, coordinates := rd.coordinates
           distance := rd.distance, duration := rd.duration
           start_address := rd.start_address, end_address := rd.end_address
           is_active := true }] }) guide.id =
      [{ id := nid, guide_id := guide.id, coordinates := rd.coordinates
         distance := rd.distance, duration := rd.duration
         start_address := rd.start_address, end_address := rd.end_address
         is_active := true }] := by
    unfold activeRoutes
    rw [List.filter_append, filter_deactivate_self]
    simp
  refine ⟨hmain, ?_, ?_⟩
  · intro gid hne
    unfold activeRoutes
    rw [List.filter_append, filter_deactivate_other _ _ _ hne]
    simp [Ne.symm hne]
  · intro gid hle
    by_cases hg : gid = guide.id
    · subst hg
      rw [hmain]
      exact Nat.le_refl 1
    · rw [show activeRoutes _ gid = activeRoutes db gid from ?_]
      · exact hle
      · unfold activeRoutes
        rw [List.filter_append, filter_deactivate_other _ _ _ hg]
        simp [Ne.symm hg]

/-- An existing active route of guide 1. -/
def rOld : GuideRoute := ⟨7, 1, [⟨0, 0⟩, ⟨1, 1⟩], 2, 10, some "A", some "B", true⟩

/-- Witness state with one guide owning one active route. -/
def dbRoutes : DB := ⟨[uOwner], [gBase], [rOld], []⟩

/-- A valid route-creation request body. -/
def rdRoute : GuideRouteCreate :=
  ⟨[⟨0, 0⟩, ⟨1, 1⟩], ⟨0, 0⟩, ⟨1, 1⟩, 5/2, 15, some "Casa", some "Hassan"⟩

/-- The route row inserted from `rdRoute`. -/
def rNew : GuideRoute := ⟨50, 1, [⟨0, 0⟩, ⟨1, 1⟩], 5/2, 15, some "Casa", some "Hassan", true⟩

/-- The old route after deactivation. -/
def rOldOff : GuideRoute := { rOld with is_active := false }

/-- The state after `save_guide_route dbRoutes uOwner rdRoute 50`. -/
def dbRoutes1 : DB := ⟨[uOwner], [gBase], [rOldOff, rNew], []⟩

theorem save_guide_route_dbRoutes_run :
    save_guide_route dbRoutes uOwner rdRoute 50 = .ok (dbRoutes1, rNew) := by
  norm_num [save_guide_route, mkLineString, dbRoutes, uOwner, gBase, rOld,
    rdRoute, rNew, rOldOff, dbRoutes1, List.find?]

/-- Witness for C2: the concrete run above; the new route is the guide's
only active one and guide 2 is untouched, by the theorem at that run. -/
theorem c2_single_active_route_witness :
    save_guide_route dbRoutes uOwner rdRoute 50 = .ok (dbRoutes1, rNew) ∧
    activeRoutes dbRoutes1 rNew.guide_id = [rNew] ∧
    activeRoutes dbRoutes1 2 = activeRoutes dbRoutes 2 :=
  ⟨save_guide_route_dbRoutes_run,
    (c2_single_active_route dbRoutes uOwner rdRoute 50 dbRoutes1 rNew
      save_guide_route_dbRoutes_run).1,
    (c2_single_active_route dbRoutes uOwner rdRoute 50 dbRoutes1 rNew
      save_guide_route_dbRoutes_run).2.1 2 (by decide)⟩

/-- C9: `createRoute` rejects a request before any route is written — a
validation error when the coordinate list has fewer than two points or a
point is out of bounds; NOT_A_GUIDE when the requester's role is not
guide; GUIDE_PROFILE_NOT_FOUND when no guide profile exists; and
INVALID_GEOMETRY when the line construction fails — and every error
leaves the state unchanged. -/
theorem c9_create_route_rejections (db : DB) (u : User) (rd : GuideRouteCreate)
    (nid : ℕ) :
    (rd.coordinates.length < 2 ∨ (∃ c ∈ rd.coordinates, ¬ coordinateValid c) →
      createRouteEndpoint db u rd nid = .error .validationError) ∧
    (guideRouteCreateValid rd → u.role ≠ "guide" →
      createRouteEndpoint db u rd nid = .error .notAGuide) ∧
    (guideRouteCreateValid rd → u.role = "guide" →
      db.guides.find? (fun g => g.user_id == u.id) = none →
      createRouteEndpoint db u rd nid = .error .guideProfileNotFound) ∧
    (∀ guide, u.role = "guide" →
      db.guides.find? (fun g => g.user_id == u.id) = some guide →
      mkLineString (rd.coordinates.map (fun c => (c.lng, c.lat))) = none →
      save_guide_route db u rd nid = .error .invalidGeometry) ∧
    (∀ e, createRouteEndpoint db u rd nid = .error e →
      dbAfterCreateRoute db u rd nid = db) := by
  refine ⟨?_, ?_, ?_, ?_, ?_⟩
  · intro h
    have hnv : ¬ guideRouteCreateValid rd := by
      intro hv
      rcases h with h | ⟨c, hc, hcv⟩
      · exact absurd hv.1 (by omega)
      · exact hcv (hv.2.1 c hc)
    simp [createRouteEndpoint, hnv]
  · intro hv hrole
    simp [createRouteEndpoint, hv, save_guide_route, hrole]
  · intro hv hrole hfind
    simp [createRouteEndpoint, hv, save_guide_route, hrole, hfind]
  · intro guide hrole hfind hmk
    simp [save_guide_route, hrole, hfind, hmk]
  · intro e he
    unfold dbAfterCreateRoute
    rw [he]

/-- A degenerate one-point request body, rejected by validation. -/
def rdOnePoint : GuideRouteCreate := ⟨[⟨0, 0⟩], ⟨0, 0⟩, ⟨0, 0⟩, 1, 1, none, none⟩

/-- Witness state without any guide profile. -/
def dbNoProfile : DB := ⟨[uOwner], [], [], []⟩

theorem guideRouteCreateValid_rdRoute : guideRouteCreateValid rdRoute := by
  norm_num [guideRouteCreateValid, coordinateValid, addrLenOK, rdRoute]
  exact ⟨by decide, by decide⟩

/-- Witness for C9: each rejection obtained from the theorem at concrete
inputs. -/
theorem c9_create_route_rejections_witness :
    createRouteEndpoint dbRoutes uOwner rdOnePoint 60 = .error .validationError ∧
    createRouteEndpoint dbRoutes uTourist rdRoute 61 = .error .notAGuide ∧
    createRouteEndpoint dbNoProfile uOwner rdRoute 62 = .error .guideProfileNotFound ∧
    save_guide_route dbRoutes uOwner rdOnePoint 63 = .error .invalidGeometry ∧
    dbAfterCreateRoute dbRoutes uOwner rdOnePoint 60 = dbRoutes :=
  ⟨(c9_create_route_rejections dbRoutes uOwner rdOnePoint 60).1
      (Or.inl (by simp [rdOnePoint])),
    (c9_create_route_rejections dbRoutes uTourist rdRoute 61).2.1
      guideRouteCreateValid_rdRoute (by decide),
    (c9_create_route_rejections dbNoProfile uOwner rdRoute 62).2.2.1
      guideRouteCreateValid_rdRoute rfl (by simp [dbNoProfile]),
    (c9_create_route_rejections dbRoutes uOwner rdOnePoint 63).2.2.2.1
      gBase rfl (by simp [dbRoutes, gBase, uOwner, List.find?])
      (by simp [mkLineString, rdOnePoint]),
    (c9_create_route_rejections dbRoutes uOwner rdOnePoint 60).2.2.2.2
      .validationError
      ((c9_create_route_rejections dbRoutes uOwner rdOnePoint 60).1
        (Or.inl (by simp [rdOnePoint])))⟩

/-! ## C6: duplicate ratings -/

/-- The documented state invariants (spec §3): primary keys are unique,
and every stored review references an existing tourist account and an
existing verified guide whose owner is not the rater. -/
def WellFormedDB (db : DB) : Prop :=
  db.users.Pairwise (fun a b => a.id ≠ b.id) ∧
  db.guides.Pairwise (fun a b => a.id ≠ b.id) ∧
  ∀ r ∈ db.reviews,
    (∃ u ∈ db.users, u.id = r.tourist_id ∧ u.role = "tourist") ∧
    (∃ g ∈ db.guides, g.id = r.guide_id ∧ g.is_verified = true ∧
      g.user_id ≠ r.tourist_id)

/-- Helper: in a list whose members have pairwise distinct keys, two
members with the same key are equal. -/
theorem id_unique_of_pairwise {α : Type} (f : α → ℕ) {l : List α}
    (hp : l.Pairwise (fun a b => f a ≠ f b)) {a b : α}
    (ha : a ∈ l) (hb : b ∈ l) (hf : f a = f b) : a = b := by
  by_contra hne
  have hsymm : Symmetric (fun (a b : α) => f a ≠ f b) :=
    fun _ _ h e => h e.symm
  exact List.Pairwise.forall hsymm hp ha hb hne hf

/-- C6: when the requester already holds a rating for the guide, a second
rating attempt always fails with the Conflict error
REVIEW_ALREADY_EXISTS, and the failed request leaves the state unchanged
(the duplicate check runs before any write and nothing commits). -/
theorem c6_duplicate_rating_conflict (db : DB) (u : User) (rd : ReviewCreate)
    (nid : ℕ) (hwf : WellFormedDB db) (hu : u ∈ db.users)
    (rv : Review) (hrv : rv ∈ db.reviews)
    (hg : rv.guide_id = rd.guide_id) (ht : rv.tourist_id = u.id) :
    create_review db u rd nid = .error .reviewAlreadyExists ∧
    dbAfterCreateReview db u rd nid = db := by
  obtain ⟨hup, hgp, hinv⟩ := hwf
  obtain ⟨⟨u', hu', hu'id, hu'role⟩, ⟨g', hg', hg'id, hg'ver, hg'own⟩⟩ :=
    hinv rv hrv
  have huRole : u.role = "tourist" := by
    rw [show u = u' from id_unique_of_pairwise User.id hup hu hu'
      (by rw [hu'id, ht])]
    exact hu'role
  have hpred' : (fun g => g.id == rd.guide_id && g.is_verified) g' = true := by
    simp [hg'id, ← hg, hg'ver]
  have hsome : (db.guides.find?
      (fun g => g.id == rd.guide_id && g.is_verified)).isSome :=
    List.find?_isSome.mpr ⟨g', hg', hpred'⟩
  obtain ⟨gf, hgf⟩ := Option.isSome_iff_exists.mp hsome
  have hgfmem := List.mem_of_find?_eq_some hgf
  have hgfpred := List.find?_some hgf
  simp only [Bool.and_eq_true, beq_iff_eq] at hgfpred
  have hgfeq : gf = g' := id_unique_of_pairwise Guide.id hgp hgfmem hg'
    (by rw [hgfpred.1, hg'id, hg])
  have hself : ¬ (gf.user_id = u.id) := by
    rw [hgfeq]
    intro e
    exact hg'own (by rw [e, ← ht])
  have hdup : (db.reviews.find?
      (fun r => r.guide_id == rd.guide_id && r.tourist_id == u.id)).isSome :=
    List.find?_isSome.mpr ⟨rv, hrv, by simp [hg, ht]⟩
  have hmain : create_review db u rd nid = .error .reviewAlreadyExists := by
    simp [create_review, huRole, hgf, hself, hdup]
  exact ⟨hmain, by unfold dbAfterCreateReview; rw [hmain]⟩

/-- Witness for C6: `uTourist` already rated guide 1 in `dbAfterFive`; a
second attempt is rejected with the Conflict error and changes nothing. -/
theorem c6_duplicate_rating_conflict_witness :
    WellFormedDB dbAfterFive ∧
    create_review dbAfterFive uTourist rdFive 200 = .error .reviewAlreadyExists ∧
    dbAfterCreateReview dbAfterFive uTourist rdFive 200 = dbAfterFive :=
  ⟨by simp [WellFormedDB, dbAfterFive, uTourist, uOwner, gAfterFive, gBase,
      rvFive],
    (c6_duplicate_rating_conflict dbAfterFive uTourist rdFive 200
      (by simp [WellFormedDB, dbAfterFive, uTourist, uOwner, gAfterFive,
        gBase, rvFive])
      (by simp [dbAfterFive]) rvFive (by simp [dbAfterFive]) rfl rfl).1,
    (c6_duplicate_rating_conflict dbAfterFive uTourist rdFive 200
      (by simp [WellFormedDB, dbAfterFive, uTourist, uOwner, gAfterFive,
        gBase, rvFive])
      (by simp [dbAfterFive]) rvFive (by simp [dbAfterFive]) rfl rfl).2⟩

/-! ## Query Predicate Composer (`app/search.py`) -/

/-- Helper for SQL `ILIKE`: does the pattern occur at the head? -/
def charsStartWith : List Char → List Char → Bool
  | [], _ => true
  | _ :: _, [] => false
  | a :: as, b :: bs => a == b && charsStartWith as bs

/-- Helper for SQL `ILIKE`: does the pattern occur anywhere? -/
def charsContain (pat : List Char) : List Char → Bool
  | [] => charsStartWith pat []
  | b :: bs => charsStartWith pat (b :: bs) || charsContain pat bs

/-- SQL `column ILIKE '%pat%'`: case-insensitive substring match. -/
def ilikeContains (pat s : String) : Bool :=
  charsContain pat.toLower.data s.toLower.data

/-- SQL `ILIKE` on a nullable column: `NULL ILIKE x` is NULL, which a
`WHERE` clause treats as not-true. -/
def strOptILike (pat : String) : Option String → Bool
  | none => false
  | some s => ilikeContains pat s

/-- FastAPI length bounds on the optional `q` parameter
(`min_length=2, max_length=100`). -/
def qLenOK : Option String → Prop
  | none => True
  | some s => 2 ≤ s.length ∧ s.length ≤ 100

instance : DecidablePred qLenOK := fun o => by
  cases o with
  | none => exact isTrue trivial
  | some s => exact inferInstanceAs (Decidable (2 ≤ s.length ∧ s.length ≤ 100))

/-- FastAPI length bounds on the optional `route_query` parameter
(`min_length=2, max_length=200`). -/
def rqLenOK : Option String → Prop
  | none => True
  | some s => 2 ≤ s.length ∧ s.length ≤ 200

instance : DecidablePred rqLenOK := fun o => by
  cases o with
  | none => exact isTrue trivial
  | some s => exact inferInstanceAs (Decidable (2 ≤ s.length ∧ s.length ≤ 200))

/-- FastAPI `ge`/`le` bounds on an optional integer parameter. -/
def intRangeOK (lo hi : ℤ) : Option ℤ → Prop
  | none => True
  | some v => lo ≤ v ∧ v ≤ hi

instance (lo hi : ℤ) : DecidablePred (intRangeOK lo hi) := fun o => by
  cases o with
  | none => exact isTrue trivial
  | some v => exact inferInstanceAs (Decidable (lo ≤ v ∧ v ≤ hi))

/-- FastAPI `ge`/`le` bounds on the optional `min_rating` parameter. -/
def ratRangeOK (lo hi : ℚ) : Option ℚ → Prop
  | none => True
  | some v => lo ≤ v ∧ v ≤ hi

instance (lo hi : ℚ) : DecidablePred (ratRangeOK lo hi) := fun o => by
  cases o with
  | none => exact isTrue trivial
  | some v => exact inferInstanceAs (Decidable (lo ≤ v ∧ v ≤ hi))

/-- Query parameters of `GET /api/v1/search/guides`. -/
structure SearchGuidesParams where
  q : Option String
  city : Option String
  specialty : Option String
  language : Option String
  min_experience : Option ℤ
  min_rating : Option ℚ
  min_eco_score : Option ℤ
  verified_only : Bool
  limit : ℤ
  offset : ℤ
deriving DecidableEq, Repr

/-- The FastAPI `Query(...)` validation of the `/search/guides`
parameters, applied before the handler body runs. -/
def searchGuidesParamsValid (p : SearchGuidesParams) : Prop :=
  qLenOK p.q ∧ intRangeOK 0 50 p.min_experience ∧
  ratRangeOK 0 5 p.min_rating ∧ intRangeOK 0 100 p.min_eco_score ∧
  1 ≤ p.limit ∧ p.limit ≤ 100 ∧ 0 ≤ p.offset

instance (p : SearchGuidesParams) : Decidable (searchGuidesParamsValid p) := by
  unfold searchGuidesParamsValid; infer_instance

/-- The `User INNER JOIN Guide ON users.id = guides.user_id` base
relation, in some base order. -/
def guidesJoin (db : DB) : List (User × Guide) :=
  (db.users.map (fun u =>
    (db.guides.filter (fun g => g.user_id == u.id)).map (fun g => (u, g)))).flatten

/-- The `WHERE` clause `search_guides` composes (`app/search.py` lines
102-145): base restriction `role = guide AND is_verified AND is_active`,
then each optional filter in source order. -/
def searchGuidesPred (p : SearchGuidesParams) (row : User × Guide) : Bool :=
  (row.1.role == "guide") && row.2.is_verified && row.1.is_active &&
  (!p.verified_only || row.2.is_verified) &&
  (p.min_experience.elim true
    (fun v => decide (v ≤ (row.2.years_of_experience : ℤ)))) &&
  (p.min_rating.elim true (fun v => decide (v ≤ row.2.average_rating))) &&
  (p.min_eco_score.elim true (fun v => decide (v ≤ row.2.eco_score))) &&
  (p.city.elim true (fun c => row.2.cities_covered.contains c)) &&
  (p.specialty.elim true (fun c => row.2.specialties.contains c)) &&
  (p.language.elim true (fun c => row.2.languages.contains c)) &&
  (p.q.elim true (fun t =>
    ilikeContains t row.1.full_name || ilikeContains t row.2.bio))

/-- The row set of `/search/guides` before ORDER BY / OFFSET / LIMIT. -/
def guidesMatches (db : DB) (p : SearchGuidesParams) : List (User × Guide) :=
  (guidesJoin db).filter (searchGuidesPred p)

/-- The two ORDER BY keys of both search endpoints. -/
def sortKeyG (row : User × Guide) : ℚ × ℕ :=
  (row.2.average_rating, row.2.years_of_experience)

/-- Row `y` may follow row key `x` under
`ORDER BY average_rating DESC, years_of_experience DESC`. -/
def lexAfter (x y : ℚ × ℕ) : Prop :=
  y.1 < x.1 ∨ (x.1 = y.1 ∧ y.2 ≤ x.2)

instance (x y : ℚ × ℕ) : Decidable (lexAfter x y) := by
  unfold lexAfter; infer_instance

/-- Observable behaviour of a paginated search endpoint: parameters out of
bounds are rejected with a validation error before any query runs;
otherwise the response is OFFSET/LIMIT applied to the matching rows in
some order compatible with the ORDER BY keys — SQL fixes nothing further,
so tied rows may come back in any order. -/
def PageRun {α : Type} (rows : List α) (key : α → ℚ × ℕ) (valid : Prop)
    [Decidable valid] (offset limit : ℤ) (out : Except ApiError (List α)) :
    Prop :=
  if valid then
    ∃ full : List α,
      full.Perm rows ∧
      full.Pairwise (fun a b => lexAfter (key a) (key b)) ∧
      out = .ok ((full.drop offset.toNat).take limit.toNat)
  else out = .error .validationError

/-- Observable behaviour of `GET /api/v1/search/guides`. -/
def SearchGuidesRun (db : DB) (p : SearchGuidesParams)
    (out : Except ApiError (List (User × Guide))) : Prop :=
  PageRun (guidesMatches db p) sortKeyG (searchGuidesParamsValid p)
    p.offset p.limit out

/-- Query parameters of `GET /api/v1/search/guides-with-routes`. -/
structure SearchRoutesParams where
  q : Option String
  city : Option String
  specialty : Option String
  language : Option String
  min_experience : Option ℤ
  min_rating : Option ℚ
  min_eco_score : Option ℤ
  verified_only : Bool
  route_query : Option String
  include_without_route : Bool
  limit : ℤ
  offset : ℤ
deriving DecidableEq, Repr

/-- The FastAPI `Query(...)` validation of the `/search/guides-with-routes`
parameters. -/
def searchRoutesParamsValid (p : SearchRoutesParams) : Prop :=
  qLenOK p.q ∧ rqLenOK p.route_query ∧ intRangeOK 0 50 p.min_experience ∧
  ratRangeOK 0 5 p.min_rating ∧ intRangeOK 0 100 p.min_eco_score ∧
  1 ≤ p.limit ∧ p.limit ≤ 100 ∧ 0 ≤ p.offset

instance (p : SearchRoutesParams) : Decidable (searchRoutesParamsValid p) := by
  unfold searchRoutesParamsValid; infer_instance

/-- The rows a `LEFT JOIN guide_routes ON guide_id = guides.id AND
is_active` contributes for one guide: its active routes, or a single NULL
row when it has none. -/
def activeRouteRows (db : DB) (g : Guide) : List (Option GuideRoute) :=
  match db.routes.filter (fun r => r.guide_id == g.id && r.is_active) with
  | [] => [none]
  | rs => rs.map some

/-- The `User INNER JOIN Guide LEFT JOIN GuideRoute` base relation. -/
def routesJoin (db : DB) : List (User × Guide × Option GuideRoute) :=
  ((guidesJoin db).map (fun ug =>
    (activeRouteRows db ug.2).map (fun rt => (ug.1, ug.2, rt)))).flatten

/-- The `WHERE` clause `search_guides_with_routes` composes
(`app/search.py` lines 233-293): base restriction `role = guide AND
approval_status = approved AND is_active`, the routeless-exclusion filter,
the route-address filter (NULL route addresses never match), then the
guide filters in source order. -/
def searchRoutesPred (p : SearchRoutesParams)
    (row : User × Guide × Option GuideRoute) : Bool :=
  (row.1.role == "guide") && (row.2.1.approval_status == "approved") &&
  row.1.is_active &&
  (p.include_without_route || row.2.2.isSome) &&
  (p.route_query.elim true (fun t =>
    match row.2.2 with
    | none => false
    | some rt => strOptILike t rt.start_address || strOptILike t rt.end_address)) &&
  (!p.verified_only || row.2.1.is_verified) &&
  (p.min_experience.elim true
    (fun v => decide (v ≤ (row.2.1.years_of_experience : ℤ)))) &&
  (p.min_rating.elim true (fun v => decide (v ≤ row.2.1.average_rating))) &&
  (p.min_eco_score.elim true (fun v => decide (v ≤ row.2.1.eco_score))) &&
  (p.city.elim true (fun c => row.2.1.cities_covered.contains c)) &&
  (p.specialty.elim true (fun c => row.2.1.specialties.contains c)) &&
  (p.language.elim true (fun c => row.2.1.languages.contains c)) &&
  (p.q.elim true (fun t =>
    ilikeContains t row.1.full_name || ilikeContains t row.2.1.bio))

/-- The guide-level part of `searchRoutesPred`: every conjunct that does
not look at the joined route. -/
def searchRoutesGuidePred (p : SearchRoutesParams) (u : User) (g : Guide) :
    Bool :=
  (u.role == "guide") && (g.approval_status == "approved") && u.is_active &&
  (!p.verified_only || g.is_verified) &&
  (p.min_experience.elim true
    (fun v => decide (v ≤ (g.years_of_experience : ℤ)))) &&
  (p.min_rating.elim true (fun v => decide (v ≤ g.average_rating))) &&
  (p.min_eco_score.elim true (fun v => decide (v ≤ g.eco_score))) &&
  (p.city.elim true (fun c => g.cities_covered.contains c)) &&
  (p.specialty.elim true (fun c => g.specialties.contains c)) &&
  (p.language.elim true (fun c => g.languages.contains c)) &&
  (p.q.elim true (fun t =>
    ilikeContains t u.full_name || ilikeContains t g.bio))

/-- The row set of `/search/guides-with-routes` before ORDER BY /
OFFSET / LIMIT. -/
def routesMatches (db : DB) (p : SearchRoutesParams) :
    List (User × Guide × Option GuideRoute) :=
  (routesJoin db).filter (searchRoutesPred p)

/-- The ORDER BY keys of `/search/guides-with-routes`. -/
def sortKeyR (row : User × Guide × Option GuideRoute) : ℚ × ℕ :=
  (row.2.1.average_rating, row.2.1.years_of_experience)

/-- Observable behaviour of `GET /api/v1/search/guides-with-routes`. -/
def SearchRoutesRun (db : DB) (p : SearchRoutesParams)
    (out : Except ApiError (List (User × Guide × Option GuideRoute))) : Prop :=
  PageRun (routesMatches db p) sortKeyR (searchRoutesParamsValid p)
    p.offset p.limit out

/-- Helper: every row of a successful page comes from the match set. -/
theorem pageRun_mem {α : Type} {rows : List α} {key : α → ℚ × ℕ}
    {valid : Prop} [Decidable valid] {offset limit : ℤ}
    {out : Except ApiError (List α)} {l : List α} {row : α}
    (hrun : PageRun rows key valid offset limit out)
    (hout : out = .ok l) (hrow : row ∈ l) : row ∈ rows := by
  unfold PageRun at hrun
  split at hrun
  · obtain ⟨full, hperm, _, hfull⟩ := hrun
    rw [hout] at hfull
    injection hfull with hl
    subst hl
    exact hperm.subset
      (((List.take_sublist _ _).trans (List.drop_sublist _ _)).subset hrow)
  · rw [hout] at hrun
    exact Except.noConfusion hrun

/-- Helper: a successful page is sorted under the ORDER BY keys. -/
theorem pageRun_pairwise {α : Type} {rows : List α} {key : α → ℚ × ℕ}
    {valid : Prop} [Decidable valid] {offset limit : ℤ}
    {out : Except ApiError (List α)} {l : List α}
    (hrun : PageRun rows key valid offset limit out)
    (hout : out = .ok l) :
    l.Pairwise (fun a b => lexAfter (key a) (key b)) := by
  unfold PageRun at hrun
  split at hrun
  · obtain ⟨full, _, hsort, hfull⟩ := hrun
    rw [hout] at hfull
    injection hfull with hl
    subst hl
    exact hsort.sublist ((List.take_sublist _ _).trans (List.drop_sublist _ _))
  · rw [hout] at hrun
    exact Except.noConfusion hrun

/-- Helper: an invalid parameter set forces the validation error. -/
theorem pageRun_invalid {α : Type} {rows : List α} {key : α → ℚ × ℕ}
    {valid : Prop} [Decidable valid] {offset limit : ℤ}
    {out : Except ApiError (List α)}
    (hrun : PageRun rows key valid offset limit out) (hnv : ¬ valid) :
    out = .error .validationError := by
  unfold PageRun at hrun
  rwa [if_neg hnv] at hrun

/-- Helper: an offset at or beyond the match count forces an empty page. -/
theorem pageRun_beyond {α : Type} {rows : List α} {key : α → ℚ × ℕ}
    {valid : Prop} [Decidable valid] {offset limit : ℤ}
    {out : Except ApiError (List α)}
    (hrun : PageRun rows key valid offset limit out) (hv : valid)
    (hoff : rows.length ≤ offset.toNat) : out = .ok [] := by
  unfold PageRun at hrun
  rw [if_pos hv] at hrun
  obtain ⟨full, hperm, _, hfull⟩ := hrun
  rw [List.drop_eq_nil_of_le (by rw [hperm.length_eq]; exact hoff),
    List.take_nil] at hfull
  exact hfull

/-! ## C4: sort order -/

/-- C4 amended: every successful page of either search endpoint is sorted
lexicographically by (average_rating desc, years_of_experience desc): for
consecutive results the later average never exceeds the earlier, and on
equal averages the later experience never exceeds the earlier.  The code
adds no deterministic secondary tie-break, so nothing more holds. -/
theorem c4_sort_order_amended :
    (∀ (db : DB) (p : SearchGuidesParams) (out : Except ApiError (List (User × Guide)))
      (l : List (User × Guide)), SearchGuidesRun db p out → out = .ok l →
      l.Chain' (fun a b => lexAfter (sortKeyG a) (sortKeyG b))) ∧
    (∀ (db : DB) (p : SearchRoutesParams)
      (out : Except ApiError (List (User × Guide × Option GuideRoute)))
      (l : List (User × Guide × Option GuideRoute)),
      SearchRoutesRun db p out → out = .ok l →
      l.Chain' (fun a b => lexAfter (sortKeyR a) (sortKeyR b))) :=
  ⟨fun _ _ _ _ hrun hout => (pageRun_pairwise hrun hout).chain',
    fun _ _ _ _ hrun hout => (pageRun_pairwise hrun hout).chain'⟩

/-- A guide user tied with `uB`'s guide on both sort keys. -/
def uA : User := ⟨11, "A", "guide", true, false⟩

/-- A second guide user. -/
def uB : User := ⟨12, "B", "guide", true, false⟩

/-- Guide of `uA`: average 0, experience 3. -/
def gA : Guide := ⟨21, 11, [], [], [], 3, "", true, 0, "approved", 0, 0⟩

/-- Guide of `uB`: identical sort keys (average 0, experience 3). -/
def gB : Guide := ⟨22, 12, [], [], [], 3, "", true, 0, "approved", 0, 0⟩

/-- State with two guides tied on both ORDER BY keys. -/
def dbTie : DB := ⟨[uA, uB], [gA, gB], [], []⟩

/-- Default `/search/guides` parameters: no filters, limit 20, offset 0. -/
def pDef : SearchGuidesParams :=
  ⟨none, none, none, none, none, none, none, false, 20, 0⟩

theorem guidesMatches_dbTie :
    guidesMatches dbTie pDef = [(uA, gA), (uB, gB)] := by
  simp [guidesMatches, guidesJoin, searchGuidesPred, dbTie, uA, uB, gA, gB,
    pDef, Option.elim]

theorem run_dbTie_AB :
    SearchGuidesRun dbTie pDef (.ok [(uA, gA), (uB, gB)]) := by
  unfold SearchGuidesRun PageRun
  rw [if_pos (by decide)]
  refine ⟨[(uA, gA), (uB, gB)], by rw [guidesMatches_dbTie], ?_, ?_⟩
  · simp [List.pairwise_cons, lexAfter, sortKeyG, gA, gB]
  · rw [show pDef.offset.toNat = 0 from rfl, show pDef.limit.toNat = 20 from rfl,
      List.drop_zero, List.take_of_length_le (by simp)]

theorem run_dbTie_BA :
    SearchGuidesRun dbTie pDef (.ok [(uB, gB), (uA, gA)]) := by
  unfold SearchGuidesRun PageRun
  rw [if_pos (by decide)]
  refine ⟨[(uB, gB), (uA, gA)], ?_, ?_, ?_⟩
  · rw [guidesMatches_dbTie]
    exact List.Perm.swap (uA, gA) (uB, gB) []
  · simp [List.pairwise_cons, lexAfter, sortKeyG, gA, gB]
  · rw [show pDef.offset.toNat = 0 from rfl, show pDef.limit.toNat = 20 from rfl,
      List.drop_zero, List.take_of_length_le (by simp)]

/-- Guide user with a high-rated, low-experience guide. -/
def uC : User := ⟨15, "C", "guide", true, false⟩

/-- Guide user with a lower-rated, high-experience guide. -/
def uD : User := ⟨16, "D", "guide", true, false⟩

/-- Guide of `uC`: average 5, experience 2. -/
def gC : Guide := ⟨25, 15, [], [], [], 2, "", true, 0, "approved", 5, 0⟩

/-- Guide of `uD`: average 4, experience 10. -/
def gD : Guide := ⟨26, 16, [], [], [], 10, "", true, 0, "approved", 4, 0⟩

/-- State whose lexicographic order puts low experience first. -/
def dbExp : DB := ⟨[uC, uD], [gC, gD], [], []⟩

theorem run_dbExp : SearchGuidesRun dbExp pDef (.ok [(uC, gC), (uD, gD)]) := by
  unfold SearchGuidesRun PageRun
  rw [if_pos (by decide)]
  refine ⟨[(uC, gC), (uD, gD)], ?_, ?_, ?_⟩
  · rw [show guidesMatches dbExp pDef = [(uC, gC), (uD, gD)] from by
      simp [guidesMatches, guidesJoin, searchGuidesPred, dbExp, uC, uD, gC,
        gD, pDef, Option.elim]]
  · refine List.Pairwise.cons ?_ (by simp)
    intro b hb
    rw [List.mem_singleton.mp hb]
    exact Or.inl (by norm_num [sortKeyG, gC, gD])
  · rw [show pDef.offset.toNat = 0 from rfl, show pDef.limit.toNat = 20 from rfl,
      List.drop_zero, List.take_of_length_le (by simp)]

/-- C4 counterexample: on a state with two guides tied on both sort keys,
both orders are valid responses of `/search/guides` for the same request —
the code orders by the two keys only, so there is no deterministic
secondary tie-break and the full ordering is not reproducible.  Moreover a
valid response can have a later row whose second sort key exceeds the
earlier row's (experience 10 after experience 2), so "neither sort key of
the later result exceeds that of the earlier" fails as well. -/
theorem c4_sort_order_counterexample :
    SearchGuidesRun dbTie pDef (.ok [(uA, gA), (uB, gB)]) ∧
    SearchGuidesRun dbTie pDef (.ok [(uB, gB), (uA, gA)]) ∧
    ((Except.ok [(uA, gA), (uB, gB)] :
      Except ApiError (List (User × Guide))) ≠ .ok [(uB, gB), (uA, gA)]) ∧
    SearchGuidesRun dbExp pDef (.ok [(uC, gC), (uD, gD)]) ∧
    gC.years_of_experience < gD.years_of_experience :=
  ⟨run_dbTie_AB, run_dbTie_BA, by simp [uA, uB], run_dbExp, by decide⟩

/-- Empty state used to exercise the routes endpoint. -/
def dbEmpty : DB := ⟨[], [], [], []⟩

/-- Default `/search/guides-with-routes` parameters. -/
def pDefR : SearchRoutesParams :=
  ⟨none, none, none, none, none, none, none, false, none, false, 20, 0⟩

theorem run_dbEmpty_R : SearchRoutesRun dbEmpty pDefR (.ok []) := by
  unfold SearchRoutesRun PageRun
  rw [if_pos (by decide)]
  exact ⟨[], by simp [routesMatches, routesJoin, guidesJoin, dbEmpty],
    List.Pairwise.nil, by simp⟩

/-- Witness for C4 amended: the sortedness conclusion at the two concrete
runs above. -/
theorem c4_sort_order_amended_witness :
    ([(uA, gA), (uB, gB)] : List (User × Guide)).Chain'
      (fun a b => lexAfter (sortKeyG a) (sortKeyG b)) ∧
    ([] : List (User × Guide × Option GuideRoute)).Chain'
      (fun a b => lexAfter (sortKeyR a) (sortKeyR b)) :=
  ⟨c4_sort_order_amended.1 dbTie pDef _ _ run_dbTie_AB rfl,
    c4_sort_order_amended.2 dbEmpty pDefR _ _ run_dbEmpty_R rfl⟩

/-! ## C5: base relations of the two endpoints -/

/-- Helper: a row matched by `/search/guides` satisfies that endpoint's
base restriction: role guide, account active, guide verified. -/
theorem mem_guidesMatches_base {db : DB} {p : SearchGuidesParams}
    {u : User} {g : Guide} (h : (u, g) ∈ guidesMatches db p) :
    u.role = "guide" ∧ u.is_active = true ∧ g.is_verified = true := by
  have hp := (List.mem_filter.mp h).2
  simp only [searchGuidesPred, Bool.and_eq_true, beq_iff_eq] at hp
  obtain ⟨⟨⟨⟨⟨⟨⟨⟨⟨⟨h1, h2⟩, h3⟩, -⟩, -⟩, -⟩, -⟩, -⟩, -⟩, -⟩, -⟩ := hp
  exact ⟨h1, h3, h2⟩

/-- Helper: a row matched by `/search/guides-with-routes` satisfies that
endpoint's base restriction: role guide, account active, guide approved. -/
theorem mem_routesMatches_base {db : DB} {p : SearchRoutesParams}
    {u : User} {g : Guide} {rt : Option GuideRoute}
    (h : (u, g, rt) ∈ routesMatches db p) :
    u.role = "guide" ∧ u.is_active = true ∧ g.approval_status = "approved" := by
  have hp := (List.mem_filter.mp h).2
  simp only [searchRoutesPred, Bool.and_eq_true, beq_iff_eq] at hp
  obtain ⟨⟨⟨⟨⟨⟨⟨⟨⟨⟨⟨⟨h1, h2⟩, h3⟩, -⟩, -⟩, -⟩, -⟩, -⟩, -⟩, -⟩, -⟩, -⟩, -⟩ := hp
  exact ⟨h1, h3, h2⟩

/-- C5 amended: `/search/guides` restricts its inner join to role guide,
account active and `is_verified`; `/search/guides-with-routes` restricts
to role guide, account active and `approval_status = approved` — two
different base relations.  Consequently a non-verified guide never appears
on the first endpoint and a non-approved guide never appears on the
second; a guide that is neither verified nor approved appears on neither. -/
theorem c5_base_relations_amended :
    (∀ (db : DB) (p : SearchGuidesParams) out (l : List (User × Guide))
      (u : User) (g : Guide), SearchGuidesRun db p out → out = .ok l →
      (u, g) ∈ l → u.role = "guide" ∧ u.is_active = true ∧ g.is_verified = true) ∧
    (∀ (db : DB) (p : SearchRoutesParams) out
      (l : List (User × Guide × Option GuideRoute)) (u : User) (g : Guide)
      (rt : Option GuideRoute), SearchRoutesRun db p out → out = .ok l →
      (u, g, rt) ∈ l →
      u.role = "guide" ∧ u.is_active = true ∧ g.approval_status = "approved") ∧
    (∀ (db : DB) (p : SearchGuidesParams) out (l : List (User × Guide))
      (u : User) (g : Guide), SearchGuidesRun db p out → out = .ok l →
      g.is_verified = false → (u, g) ∉ l) ∧
    (∀ (db : DB) (p : SearchRoutesParams) out
      (l : List (User × Guide × Option GuideRoute)) (u : User) (g : Guide)
      (rt : Option GuideRoute), SearchRoutesRun db p out → out = .ok l →
      g.approval_status ≠ "approved" → (u, g, rt) ∉ l) := by
  refine ⟨?_, ?_, ?_, ?_⟩
  · intro db p out l u g hrun hout hmem
    exact mem_guidesMatches_base (pageRun_mem hrun hout hmem)
  · intro db p out l u g rt hrun hout hmem
    exact mem_routesMatches_base (pageRun_mem hrun hout hmem)
  · intro db p out l u g hrun hout hver hmem
    have := (mem_guidesMatches_base (pageRun_mem hrun hout hmem)).2.2
    rw [hver] at this
    exact Bool.noConfusion this
  · intro db p out l u g rt hrun hout happ hmem
    exact happ (mem_routesMatches_base (pageRun_mem hrun hout hmem)).2.2

/-- A guide user whose guide is verified but not approved. -/
def uV : User := ⟨13, "V", "guide", true, false⟩

/-- Verified guide stuck in `pending_review` (reachable: re-submitting
documents sets `approval_status` back without clearing `is_verified`). -/
def gV : Guide := ⟨23, 13, [], [], [], 1, "", true, 0, "pending_review", 0, 0⟩

/-- An active route of `gV`, so the routes endpoint cannot exclude it for
being routeless. -/
def rV : GuideRoute := ⟨71, 23, [⟨0, 0⟩, ⟨1, 1⟩], 1, 1, some "X", some "Y", true⟩

/-- State with the verified-but-not-approved guide. -/
def dbV : DB := ⟨[uV], [gV], [rV], []⟩

theorem run_dbV_guides : SearchGuidesRun dbV pDef (.ok [(uV, gV)]) := by
  unfold SearchGuidesRun PageRun
  rw [if_pos (by decide)]
  refine ⟨[(uV, gV)], ?_, ?_, ?_⟩
  · rw [show guidesMatches dbV pDef = [(uV, gV)] from by
      simp [guidesMatches, guidesJoin, searchGuidesPred, dbV, uV, gV, pDef,
        Option.elim]]
  · simp
  · rw [show pDef.offset.toNat = 0 from rfl, show pDef.limit.toNat = 20 from rfl,
      List.drop_zero, List.take_of_length_le (by simp)]

theorem run_dbV_routes : SearchRoutesRun dbV pDefR (.ok []) := by
  unfold SearchRoutesRun PageRun
  rw [if_pos (by decide)]
  refine ⟨[], ?_, List.Pairwise.nil, by simp⟩
  rw [show routesMatches dbV pDefR = [] from by
    simp [routesMatches, routesJoin, guidesJoin, activeRouteRows,
      searchRoutesPred, dbV, uV, gV, rV, pDefR, Option.elim]]

/-- C5 counterexample: `gV` is verified, not approved, and has an active
route; on the same state with default filters, `/search/guides` must
return it while `/search/guides-with-routes` must return nothing — the two
endpoints do not share one base relation, and a non-approved guide is
returned by the first endpoint. -/
theorem c5_base_relations_counterexample :
    gV.is_verified = true ∧ gV.approval_status ≠ "approved" ∧
    activeRoutes dbV gV.id = [rV] ∧
    SearchGuidesRun dbV pDef (.ok [(uV, gV)]) ∧
    SearchRoutesRun dbV pDefR (.ok []) :=
  ⟨rfl, by decide, by simp [activeRoutes, dbV, rV, gV],
    run_dbV_guides, run_dbV_routes⟩

/-- A guide user with an approved, verified guide owning an active route. -/
def rA : GuideRoute := ⟨72, 21, [⟨0, 0⟩, ⟨1, 1⟩], 1, 1, some "jemaa", some "fna", true⟩

/-- State for the routes endpoint with a complete approved guide. -/
def dbAR : DB := ⟨[uA], [gA], [rA], []⟩

theorem run_dbAR_routes : SearchRoutesRun dbAR pDefR (.ok [(uA, gA, some rA)]) := by
  unfold SearchRoutesRun PageRun
  rw [if_pos (by decide)]
  refine ⟨[(uA, gA, some rA)], ?_, ?_, ?_⟩
  · rw [show routesMatches dbAR pDefR = [(uA, gA, some rA)] from by
      simp [routesMatches, routesJoin, guidesJoin, activeRouteRows,
        searchRoutesPred, dbAR, uA, gA, rA, pDefR, Option.elim]]
  · simp
  · rw [show pDefR.offset.toNat = 0 from rfl,
      show pDefR.limit.toNat = 20 from rfl, List.drop_zero,
      List.take_of_length_le (by simp)]

/-- An unrelated guide record that is neither verified nor approved. -/
def gNV : Guide := ⟨99, 98, [], [], [], 0, "", false, 0, "pending_approval", 0, 0⟩

/-- Witness for C5 amended: the base facts extracted from the concrete
runs, and the exclusion of a non-verified / non-approved guide. -/
theorem c5_base_relations_amended_witness :
    (uV.role = "guide" ∧ uV.is_active = true ∧ gV.is_verified = true) ∧
    (uA.role = "guide" ∧ uA.is_active = true ∧ gA.approval_status = "approved") ∧
    (uA, gNV) ∉ ([(uA, gA), (uB, gB)] : List (User × Guide)) ∧
    (uV, gNV, (none : Option GuideRoute)) ∉
      ([] : List (User × Guide × Option GuideRoute)) :=
  ⟨c5_base_relations_amended.1 dbV pDef _ _ uV gV run_dbV_guides rfl
      (by simp),
    c5_base_relations_amended.2.1 dbAR pDefR _ _ uA gA (some rA)
      run_dbAR_routes rfl (by simp),
    c5_base_relations_amended.2.2.1 dbTie pDef _ _ uA gNV run_dbTie_AB rfl rfl,
    c5_base_relations_amended.2.2.2 dbV pDefR _ _ uV gNV none run_dbV_routes
      rfl (by decide)⟩

/-! ## C7: the routeless-inclusion flag -/

/-- C7 amended: with `include_without_route = false` every matched row has
a route; but whenever `route_query` is set, every matched row has a route
as well — the NULL route address never matches, so `route_query` also
excludes routeless guides and the flag is not the only parameter changing
the effective join.  With the flag set and `route_query` unset, a
routeless guide is matched (with a null route) exactly when it passes the
guide-level filters. -/
theorem c7_include_without_route_amended :
    (∀ (db : DB) (p : SearchRoutesParams) row,
      p.include_without_route = false → row ∈ routesMatches db p →
      row.2.2.isSome = true) ∧
    (∀ (db : DB) (p : SearchRoutesParams) (t : String) row,
      p.route_query = some t → row ∈ routesMatches db p →
      row.2.2.isSome = true) ∧
    (∀ (db : DB) (p : SearchRoutesParams) (u : User) (g : Guide),
      p.include_without_route = true → p.route_query = none →
      ((u, g, (none : Option GuideRoute)) ∈ routesMatches db p ↔
        (u, g, (none : Option GuideRoute)) ∈ routesJoin db ∧
        searchRoutesGuidePred p u g = true)) := by
  refine ⟨?_, ?_, ?_⟩
  · intro db p row hflag hmem
    have hp := (List.mem_filter.mp hmem).2
    simp only [searchRoutesPred, Bool.and_eq_true] at hp
    obtain ⟨⟨⟨⟨⟨⟨⟨⟨⟨⟨⟨⟨-, -⟩, -⟩, h4⟩, -⟩, -⟩, -⟩, -⟩, -⟩, -⟩, -⟩, -⟩, -⟩ := hp
    rw [hflag, Bool.false_or] at h4
    exact h4
  · intro db p t row hrq hmem
    have hp := (List.mem_filter.mp hmem).2
    simp only [searchRoutesPred, Bool.and_eq_true] at hp
    obtain ⟨⟨⟨⟨⟨⟨⟨⟨⟨⟨⟨⟨-, -⟩, -⟩, -⟩, h5⟩, -⟩, -⟩, -⟩, -⟩, -⟩, -⟩, -⟩, -⟩ := hp
    rw [hrq] at h5
    simp only [Option.elim] at h5
    cases hr : row.2.2 with
    | none => rw [hr] at h5; exact Bool.noConfusion h5
    | some rt => rfl
  · intro db p u g hflag hrq
    have hpred : searchRoutesPred p (u, g, none) =
        searchRoutesGuidePred p u g := by
      simp [searchRoutesPred, searchRoutesGuidePred, hflag, hrq, Option.elim]
    rw [routesMatches, List.mem_filter, hpred]

/-- A guide user with an approved guide and no route at all. -/
def uW : User := ⟨14, "W", "guide", true, false⟩

/-- Approved, verified guide without any route. -/
def gW : Guide := ⟨24, 14, [], [], [], 2, "", true, 0, "approved", 0, 0⟩

/-- State whose only guide is routeless. -/
def dbNR : DB := ⟨[uW], [gW], [], []⟩

/-- Parameters with `include_without_route = true` and a `route_query`. -/
def pIncRQ : SearchRoutesParams :=
  ⟨none, none, none, none, none, none, none, false, some "aa", true, 20, 0⟩

/-- The same parameters without the `route_query`. -/
def pInc : SearchRoutesParams :=
  ⟨none, none, none, none, none, none, none, false, none, true, 20, 0⟩

theorem run_dbNR_pIncRQ : SearchRoutesRun dbNR pIncRQ (.ok []) := by
  unfold SearchRoutesRun PageRun
  rw [if_pos (by decide)]
  refine ⟨[], ?_, List.Pairwise.nil, by simp⟩
  rw [show routesMatches dbNR pIncRQ = [] from by
    simp [routesMatches, routesJoin, guidesJoin, activeRouteRows,
      searchRoutesPred, dbNR, uW, gW, pIncRQ, Option.elim]]

/-- C7 counterexample: the routeless guide `gW` passes every guide filter;
with `include_without_route = true` but `route_query` set, its row is not
matched and the endpoint must return an empty page — the claim says the
guide is included with a null route whenever the flag is true, and that
the flag is the only parameter changing the join semantics.  Dropping
`route_query` makes the same row appear. -/
theorem c7_include_without_route_counterexample :
    pIncRQ.include_without_route = true ∧
    routesMatches dbNR pIncRQ = [] ∧
    SearchRoutesRun dbNR pIncRQ (.ok []) ∧
    routesMatches dbNR pInc = [(uW, gW, none)] :=
  ⟨rfl,
    by simp [routesMatches, routesJoin, guidesJoin, activeRouteRows,
      searchRoutesPred, dbNR, uW, gW, pIncRQ, Option.elim],
    run_dbNR_pIncRQ,
    by simp [routesMatches, routesJoin, guidesJoin, activeRouteRows,
      searchRoutesPred, dbNR, uW, gW, pInc, Option.elim]⟩

/-- Witness for C7 amended: with the flag set and no `route_query`, the
routeless guide's null-route row is matched; with the flag clear, the
matched row of `dbAR` indeed carries a route. -/
theorem c7_include_without_route_amended_witness :
    pInc.include_without_route = true ∧ pInc.route_query = none ∧
    (uW, gW, (none : Option GuideRoute)) ∈ routesMatches dbNR pInc ∧
    pDefR.include_without_route = false ∧
    ((uA, gA, some rA) : User × Guide × Option GuideRoute).2.2.isSome = true :=
  ⟨rfl, rfl,
    (c7_include_without_route_amended.2.2 dbNR pInc uW gW rfl rfl).mpr
      ⟨by simp [routesJoin, guidesJoin, activeRouteRows, dbNR, uW, gW],
        by simp [searchRoutesGuidePred, pInc, uW, gW, Option.elim]⟩,
    rfl,
    c7_include_without_route_amended.1 dbAR pDefR (uA, gA, some rA) rfl
      (by simp [routesMatches, routesJoin, guidesJoin, activeRouteRows,
        searchRoutesPred, dbAR, uA, gA, rA, pDefR, Option.elim])⟩

/-! ## C8: pagination bounds -/

/-- C8: on both search endpoints, a limit outside [1,100] or a negative
offset forces the validation error — the run relation never touches the
row set on that branch — while a valid offset at or beyond the match count
forces an empty page rather than an error. -/
theorem c8_pagination_bounds :
    (∀ (db : DB) (p : SearchGuidesParams) out,
      ¬ (1 ≤ p.limit ∧ p.limit ≤ 100 ∧ 0 ≤ p.offset) →
      SearchGuidesRun db p out → out = .error .validationError) ∧
    (∀ (db : DB) (p : SearchRoutesParams) out,
      ¬ (1 ≤ p.limit ∧ p.limit ≤ 100 ∧ 0 ≤ p.offset) →
      SearchRoutesRun db p out → out = .error .validationError) ∧
    (∀ (db : DB) (p : SearchGuidesParams) out, searchGuidesParamsValid p →
      (guidesMatches db p).length ≤ p.offset.toNat →
      SearchGuidesRun db p out → out = .ok []) ∧
    (∀ (db : DB) (p : SearchRoutesParams) out, searchRoutesParamsValid p →
      (routesMatches db p).length ≤ p.offset.toNat →
      SearchRoutesRun db p out → out = .ok []) := by
  refine ⟨?_, ?_, ?_, ?_⟩
  · intro db p out hbad hrun
    exact pageRun_invalid hrun
      (fun hv => hbad ⟨hv.2.2.2.2.1, hv.2.2.2.2.2.1, hv.2.2.2.2.2.2⟩)
  · intro db p out hbad hrun
    exact pageRun_invalid hrun
      (fun hv => hbad ⟨hv.2.2.2.2.2.1, hv.2.2.2.2.2.2.1, hv.2.2.2.2.2.2.2⟩)
  · intro db p out hv hoff hrun
    exact pageRun_beyond hrun hv hoff
  · intro db p out hv hoff hrun
    exact pageRun_beyond hrun hv hoff

/-- Parameters with a limit below the allowed range. -/
def pBad : SearchGuidesParams :=
  ⟨none, none, none, none, none, none, none, false, 0, 0⟩

/-- Routes parameters with a negative offset. -/
def pBadR : SearchRoutesParams :=
  ⟨none, none, none, none, none, none, none, false, none, false, 20, -1⟩

/-- In-range parameters whose offset lies beyond the two matching rows. -/
def pOff : SearchGuidesParams :=
  ⟨none, none, none, none, none, none, none, false, 20, 50⟩

theorem run_pBad : SearchGuidesRun dbTie pBad (.error .validationError) := by
  unfold SearchGuidesRun PageRun
  rw [if_neg (by decide)]

theorem run_pBadR : SearchRoutesRun dbEmpty pBadR (.error .validationError) := by
  unfold SearchRoutesRun PageRun
  rw [if_neg (by decide)]

theorem guidesMatches_dbTie_pOff :
    guidesMatches dbTie pOff = [(uA, gA), (uB, gB)] := by
  simp [guidesMatches, guidesJoin, searchGuidesPred, dbTie, uA, uB, gA, gB,
    pOff, Option.elim]

theorem run_pOff : SearchGuidesRun dbTie pOff (.ok []) := by
  unfold SearchGuidesRun PageRun
  rw [if_pos (by decide)]
  refine ⟨[(uA, gA), (uB, gB)], by rw [guidesMatches_dbTie_pOff], ?_, ?_⟩
  · simp [List.pairwise_cons, lexAfter, sortKeyG, gA, gB]
  · rw [show pOff.offset.toNat = 50 from rfl,
      List.drop_eq_nil_of_le (by simp), List.take_nil]

/-- Witness for C8: a zero limit and a negative offset are rejected on the
respective endpoints, and an offset of 50 over two matching rows yields an
empty page, each obtained from the theorem at the concrete runs. -/
theorem c8_pagination_bounds_witness :
    SearchGuidesRun dbTie pBad (.error .validationError) ∧
    (Except.error .validationError :
      Except ApiError (List (User × Guide))) = .error .validationError ∧
    SearchRoutesRun dbEmpty pBadR (.error .validationError) ∧
    (Except.error .validationError :
      Except ApiError (List (User × Guide × Option GuideRoute))) =
      .error .validationError ∧
    SearchGuidesRun dbTie pOff (.ok []) ∧
    (Except.ok [] : Except ApiError (List (User × Guide))) = .ok [] :=
  ⟨run_pBad,
    c8_pagination_bounds.1 dbTie pBad _ (by decide) run_pBad,
    run_pBadR,
    c8_pagination_bounds.2.1 dbEmpty pBadR _ (by decide) run_pBadR,
    run_pOff,
    c8_pagination_bounds.2.2.1 dbTie pOff _ (by decide)
      (by rw [guidesMatches_dbTie_pOff]; decide) run_pOff⟩

/-! ## C10: the `verified_only` flag on `/search/guides` -/

/-- Helper: the composed WHERE clause of `/search/guides` does not depend
on `verified_only`, because the base restriction already demands
`is_verified`. -/
theorem searchGuidesPred_verified_only (p : SearchGuidesParams)
    (b c : Bool) :
    searchGuidesPred { p with verified_only := b } =
      searchGuidesPred { p with verified_only := c } := by
  funext row
  by_cases hv : row.2.is_verified <;> simp [searchGuidesPred, hv]

/-- C10: on `/search/guides` the `verified_only` flag has no observable
effect — for every state, every other parameter combination and every
response, the endpoint behaves identically with the flag set and clear,
because the base query already filters on `is_verified`. -/
theorem c10_verified_only_no_effect (db : DB) (p : SearchGuidesParams)
    (out : Except ApiError (List (User × Guide))) :
    SearchGuidesRun db { p with verified_only := true } out ↔
    SearchGuidesRun db { p with verified_only := false } out := by
  unfold SearchGuidesRun
  rw [show guidesMatches db { p with verified_only := true } =
      guidesMatches db { p with verified_only := false } from by
    unfold guidesMatches
    rw [searchGuidesPred_verified_only p true false]]
  exact Iff.rfl

end MorchidHub
